import Mathlib

/-
Shallow embedding of the dealstash marketplace core
(src/marketplace/models.py, src/marketplace/forms.py, src/marketplace/views.py).

Monetary values (Django DecimalField / Python Decimal) are modelled as exact
rationals (ℚ): Decimal arithmetic on these operands is exact, and the source
never quantizes or rounds the products it stores.  Database writes are
modelled as explicit state (the signup flow) or as the record value produced
by a save (orders, products).  Exceptions are modelled with Except.
-/

namespace Dealstash

/-- Status choices of Order (models.py, STATUS_CHOICES); default is pending. -/
inductive OrderStatus where
  | pending
  | paid
  | shipped
  | completed
  | cancelled
deriving DecidableEq, Repr

/-- Company record (models.py).  `userId` models the optional OneToOneField to
the auth user (null=True); `id` is the primary key.  Django model equality is
primary-key equality, captured by comparing `id`. -/
structure Company where
  id : Nat
  userId : Option Nat
  name : String
  email : String
  website : String
deriving DecidableEq, Repr

/-- Product record (models.py): required ForeignKey to its owning company,
name, description, exact-decimal price, optional image. -/
structure Product where
  id : Nat
  company : Company
  name : String
  description : String
  price : ℚ
  image : Option String
deriving DecidableEq, Repr

/-- Acting identity (request.user): the reverse side of Company.user, an
optional linked company.  `hasattr(request.user, "company")` is `company.isSome`. -/
structure User where
  id : Nat
  company : Option Company
deriving DecidableEq, Repr

/-- Process-wide configuration (django.conf.settings): COMMISSION_RATE may be
unset, and ADMINS yields the admin e-mail list used by the dispatcher. -/
structure Settings where
  COMMISSION_RATE : Option ℚ
deriving DecidableEq, Repr

/-- Reads the commission rate at call time:
`getattr(settings, "COMMISSION_RATE", Decimal("0.10"))` (models.py line 60). -/
def commissionRate (s : Settings) : ℚ :=
  s.COMMISSION_RATE.getD (10 / 100)

/-- Order record (models.py): ForeignKey to product, buyer fields, positive
integer quantity, computed totals, status defaulting to pending. -/
structure Order where
  product : Product
  buyer_name : String
  buyer_email : String
  quantity : Nat
  total_price : ℚ
  commission : ℚ
  status : OrderStatus
deriving DecidableEq, Repr

/-- Order.save (models.py lines 57-62): recomputes total_price from the
product's current price and the quantity, recomputes commission from the
configured rate, overwriting both stored fields, then persists.  No rounding
or quantization is applied to either product. -/
def Order.save (s : Settings) (o : Order) : Order :=
  let total_price := o.product.price * (o.quantity : ℚ)
  let rate := commissionRate s
  { o with total_price := total_price, commission := total_price * rate }

/-- Order.seller_earnings (models.py lines 64-65). -/
def Order.seller_earnings (o : Order) : ℚ :=
  o.total_price - o.commission

/-- Modelled from the spec: `round(x, 2)` at exact 2-decimal precision, the
rounding the spec's claim asserts for the stored commission.  (At every value
this development evaluates it on, round-half-even and round-half-up agree.)
The source code contains no such rounding step; this definition exists only to
compare the spec's words against the code. -/
def specRound2 (x : ℚ) : ℚ :=
  ((round (x * 100) : ℤ) : ℚ) / 100

/-- Ownership guard used by product_edit (views.py line 62) and
product_delete (views.py line 85): the mutation is permitted iff
`hasattr(request.user, "company")` holds and `request.user.company ==
product.company` (Django compares model instances by primary key). -/
def can_modify (u : User) (p : Product) : Bool :=
  match u.company with
  | none => false
  | some c => c.id == p.company.id

/-- Outcome of the guard stage of a product-mutation view: redirect to the
seller-signup page, raise PermissionDenied, or proceed with the operation. -/
inductive GuardOutcome where
  | redirectSignup
  | permissionDenied
  | proceed
deriving DecidableEq, Repr

/-- Guard stage of product_create (views.py lines 37-40):
`getattr(request.user, "company", None)`; when absent, message + redirect to
seller_signup; otherwise the view proceeds. -/
def product_create_guard (u : User) : GuardOutcome :=
  match u.company with
  | none => .redirectSignup
  | some _ => .proceed

/-- Guard stage of product_edit (views.py lines 62-63): when the ownership
check fails, `raise PermissionDenied()`. -/
def product_edit_guard (u : User) (p : Product) : GuardOutcome :=
  if can_modify u p then .proceed else .permissionDenied

/-- Guard stage of product_delete (views.py lines 85-86): same check and same
PermissionDenied as product_edit. -/
def product_delete_guard (u : User) (p : Product) : GuardOutcome :=
  if can_modify u p then .proceed else .permissionDenied

/-- Fields exposed by ProductForm (forms.py lines 7-10): name, price,
description, image — the owning company was removed from the form. -/
structure ProductFormData where
  name : String
  price : ℚ
  description : String
  image : Option String
deriving DecidableEq, Repr

/-- product_create on a valid POST (views.py lines 42-47): guard passes with
the user's company, `form.save(commit=False)` builds the product from the form
fields only, then `product.company = company` and `product.save()`.  Returns
the persisted product, or none when the guard redirects or the form is
invalid (`formOk = false` re-renders the form without a write).  `newId` is
the primary key the store assigns. -/
def product_create (u : User) (fd : ProductFormData) (formOk : Bool) (newId : Nat) :
    Option Product :=
  match u.company with
  | none => none
  | some c =>
      if formOk then
        some { id := newId, company := c, name := fd.name, price := fd.price,
               description := fd.description, image := fd.image }
      else none

/-- Raw submission to OrderForm (forms.py lines 43-51): buyer_name,
buyer_email, quantity.  `emailWellFormed` records the verdict of the
framework's EmailField validator, an external collaborator this development
does not re-implement; quantity arrives as an integer. -/
structure OrderFormData where
  buyer_name : String
  buyer_email : String
  emailWellFormed : Bool
  quantity : Int
deriving DecidableEq, Repr

/-- Server-side validation of OrderForm: buyer_name required (non-empty),
buyer_email well-formed, and quantity passing the validators of the model's
PositiveIntegerField (models.py line 50), whose floor is 0 — Django's
PositiveIntegerField admits zero — with the backend ceiling 2147483647.  The
widget attribute min=1 (forms.py line 50) is client-side HTML only and is not
enforced here, matching the framework's behaviour. -/
def orderFormValid (fd : OrderFormData) : Bool :=
  fd.buyer_name ≠ "" && fd.emailWellFormed &&
    (0 ≤ fd.quantity && fd.quantity ≤ 2147483647)

instance {ε α : Type} [DecidableEq ε] [DecidableEq α] : DecidableEq (Except ε α) :=
  fun a b =>
  match a, b with
  | .ok a1, .ok a2 =>
      if h : a1 = a2 then isTrue (by rw [h])
      else isFalse (by intro hc; cases hc; exact h rfl)
  | .error e1, .error e2 =>
      if h : e1 = e2 then isTrue (by rw [h])
      else isFalse (by intro hc; cases hc; exact h rfl)
  | .ok _, .error _ => isFalse (by intro hc; cases hc)
  | .error _, .ok _ => isFalse (by intro hc; cases hc)

/-- Behaviour of the mail transport for the two sends of one dispatch: what
`msg.send(fail_silently=False)` would do for the seller-bound and for the
admin-bound message (ok, or raise with a reason). -/
structure MailTransport where
  seller : Except String Unit
  admin : Except String Unit
deriving DecidableEq, Repr

/-- Which sends a dispatch attempted, and the exception (if any) that
propagated out of _send_order_emails. -/
structure SendTrace where
  sellerAttempted : Bool
  adminAttempted : Bool
  result : Except String Unit
deriving DecidableEq, Repr

/-- Helper _send_order_emails (views.py lines 139-170): if the owning company has an
email, build and send the seller-bound message with fail_silently=False — a
transport failure raises and aborts the function right there; only then, if
the configured admin list is non-empty, send the admin-bound message, whose
failure likewise raises.  The propagated exception is whichever send raised
first, never an aggregate. -/
def sendOrderEmails (c : Company) (adminEmails : List String) (t : MailTransport) :
    SendTrace :=
  if c.email ≠ "" then
    match t.seller with
    | .error e => { sellerAttempted := true, adminAttempted := false, result := .error e }
    | .ok _ =>
        if adminEmails.isEmpty then
          { sellerAttempted := true, adminAttempted := false, result := .ok () }
        else
          { sellerAttempted := true, adminAttempted := true, result := t.admin }
  else
    if adminEmails.isEmpty then
      { sellerAttempted := false, adminAttempted := false, result := .ok () }
    else
      { sellerAttempted := false, adminAttempted := true, result := t.admin }

/-- User-facing message recorded by the order-create view. -/
inductive Msg where
  | success (text : String)
  | warning (text : String)
deriving DecidableEq, Repr

/-- Result of one order_create request: the order row persisted by the
request (none when validation failed and nothing was written), the message
shown, the redirect target, and whether an exception escaped the view. -/
structure OrderCreateOutcome where
  persisted : Option Order
  message : Option Msg
  redirect : Option String
  raised : Bool
deriving DecidableEq, Repr

/-- order_create on a POST (views.py lines 180-196): validate the form; on
success bind the order to the product and save it (Order.save computes the
totals; status keeps its default, pending); then try _send_order_emails — a
failure is caught, logged, and turned into a warning message carrying the
reason, while success yields a success message; either way the view redirects
to the product detail page and no exception escapes.  An invalid form
produces no write and re-renders. -/
def order_create (s : Settings) (adminEmails : List String) (t : MailTransport)
    (p : Product) (fd : OrderFormData) : OrderCreateOutcome :=
  if orderFormValid fd then
    let o := Order.save s
      { product := p, buyer_name := fd.buyer_name, buyer_email := fd.buyer_email,
        quantity := fd.quantity.toNat, total_price := 0, commission := 0,
        status := .pending }
    match (sendOrderEmails p.company adminEmails t).result with
    | .ok _ =>
        { persisted := some o,
          message := some (.success ("✅ Order placed. We will contact you at " ++ fd.buyer_email)),
          redirect := some "product_detail", raised := false }
    | .error e =>
        { persisted := some o,
          message := some (.warning ("Order created but sending notification failed: " ++ e)),
          redirect := some "product_detail", raised := false }
  else
    { persisted := none, message := none, redirect := none, raised := false }

/-- Cleaned data of SellerSignUpForm (forms.py lines 15-24): username, email,
company_name, optional website. -/
structure SignupData where
  username : String
  email : String
  company_name : String
  website : Option String
deriving DecidableEq, Repr

/-- Stored auth-user row created by signup. -/
structure AuthUser where
  username : String
  email : String
deriving DecidableEq, Repr

/-- Backing store as seen by the signup flow: the user table and the company
table. -/
structure DB where
  users : List AuthUser
  companies : List Company
deriving DecidableEq, Repr

/-- Company.objects.create (forms.py lines 33-38) against the store:
Company.email is declared unique (models.py line 16), so inserting a company
whose email is already taken raises an IntegrityError; otherwise the row is
appended with the next primary key, linked to the given user. -/
def companyObjectsCreate (db : DB) (userId : Nat) (name email website : String) :
    Except String DB :=
  if db.companies.any (fun c => c.email == email) then
    .error "IntegrityError: UNIQUE constraint failed: marketplace_company.email"
  else
    .ok { db with
          companies := db.companies ++
            [{ id := db.companies.length, userId := some userId,
               name := name, email := email, website := website }] }

/-- SellerSignUpForm.save with commit=True (forms.py lines 26-39): the user
row is saved first, then the company is created and linked.  The two writes
are not wrapped in any transaction, so when the company insert raises, the
already-committed user row stays in the store and the exception propagates. -/
def sellerSignUpFormSave (db : DB) (fd : SignupData) : DB × Except String AuthUser :=
  let user : AuthUser := { username := fd.username, email := fd.email }
  let db1 := { db with users := db.users ++ [user] }
  match companyObjectsCreate db1 db.users.length fd.company_name fd.email
      (fd.website.getD "") with
  | .ok db2 => (db2, .ok user)
  | .error e => (db1, .error e)

/-- Concrete fixture: a seller company with an email on file. -/
def cEx : Company := ⟨1, some 1, "Acme", "seller@x.com", ""⟩

/-- Concrete fixture: a second company, owner of nothing relevant. -/
def cOther : Company := ⟨2, some 2, "Rival", "rival@x.com", ""⟩

/-- Concrete fixture: a product of cEx priced 19.99. -/
def pEx : Product := ⟨1, cEx, "Widget", "", 1999 / 100, none⟩

/-- Concrete fixture: an unsaved order of 3 units of pEx. -/
def oEx : Order :=
  { product := pEx, buyer_name := "Bob", buyer_email := "bob@x.com",
    quantity := 3, total_price := 0, commission := 0, status := .pending }

/-- Concrete fixture: a valid order-form submission for 3 units. -/
def fdEx : OrderFormData := ⟨"Bob", "bob@x.com", true, 3⟩

/-- Concrete fixture: an order-form submission with quantity zero. -/
def fdZero : OrderFormData := ⟨"Bob", "bob@x.com", true, 0⟩

/-- Concrete fixture: a store that already holds a company using the email
alice@x.com, and no users. -/
def dbC6 : DB := ⟨[], [⟨0, none, "Other Co", "alice@x.com", ""⟩]⟩

/-- Concrete fixture: a signup submission whose company email collides with
the one already in dbC6. -/
def fdC6 : SignupData := ⟨"alice", "alice@x.com", "Alice Co", none⟩

/-- Concrete fixture: a product-form submission. -/
def fdProd : ProductFormData := ⟨"Gadget", 5 / 2, "shiny", none⟩

/-- C1: every save of an Order — not only creation — recomputes and
overwrites total_price as the product's current price times the quantity and
commission as that total times the commission rate read from process
configuration at call time (0.10 when unset), so after any save the invariant
total_price = product.price * quantity and commission = total_price * rate
holds, whatever totals the record held before. -/
theorem order_save_recomputes_totals (s : Settings) (o : Order) :
    (Order.save s o).total_price =
      (Order.save s o).product.price * ((Order.save s o).quantity : ℚ) ∧
    (Order.save s o).commission = (Order.save s o).total_price * commissionRate s ∧
    (s.COMMISSION_RATE = none → commissionRate s = 10 / 100) := by
  refine ⟨rfl, rfl, ?_⟩
  intro h
  simp [commissionRate, h]

/-- Witness for C1 at the concrete fixture order with the rate unset. -/
theorem order_save_recomputes_totals_witness :
    (Order.save ⟨none⟩ oEx).total_price =
      (Order.save ⟨none⟩ oEx).product.price * ((Order.save ⟨none⟩ oEx).quantity : ℚ) ∧
    (Order.save ⟨none⟩ oEx).commission =
      (Order.save ⟨none⟩ oEx).total_price * commissionRate ⟨none⟩ ∧
    commissionRate ⟨none⟩ = 10 / 100 := by
  have h := order_save_recomputes_totals ⟨none⟩ oEx
  exact ⟨h.1, h.2.1, h.2.2 rfl⟩

/-- C2 counterexample: at product price 19.99, quantity 3 and the default
rate 0.10, the saved order carries total_price 59.97 but commission 5.997,
while round(total_price * rate, 2) is 6.00 — the stored commission is not
the 2-decimal rounding the claim asserts. -/
theorem order_commission_unrounded_cex :
    (Order.save ⟨none⟩ oEx).total_price = 5997 / 100 ∧
    (Order.save ⟨none⟩ oEx).commission = 5997 / 1000 ∧
    specRound2 ((Order.save ⟨none⟩ oEx).total_price * commissionRate ⟨none⟩) = 6 ∧
    (Order.save ⟨none⟩ oEx).commission ≠
      specRound2 ((Order.save ⟨none⟩ oEx).total_price * commissionRate ⟨none⟩) := by
  refine ⟨?_, ?_, ?_, ?_⟩ <;>
    · simp [Order.save, commissionRate, oEx, pEx, specRound2]
      norm_num [round_eq]

/-- C2 amended: for unit_price ≥ 0, quantity ≥ 1 and commission_rate in
[0,1], the stored commission equals total_price * commission_rate exactly,
with no rounding to 2 decimal places, and seller_earnings equals
total_price - commission; in the scenario (19.99, 3, 0.10) the persisted
order has total_price 59.97 and commission exactly 5.997, not 6.00. -/
theorem order_commission_exact_product (s : Settings) (o : Order)
    (hp : 0 ≤ o.product.price) (hq : 1 ≤ o.quantity)
    (hr0 : 0 ≤ commissionRate s) (hr1 : commissionRate s ≤ 1) :
    (Order.save s o).commission = (Order.save s o).total_price * commissionRate s ∧
    (Order.save s o).seller_earnings =
      (Order.save s o).total_price - (Order.save s o).commission := by
  exact ⟨rfl, rfl⟩

/-- Witness for the amended C2 at the scenario input (19.99, 3, rate unset
hence 0.10). -/
theorem order_commission_exact_product_witness :
    (0 ≤ oEx.product.price ∧ 1 ≤ oEx.quantity ∧
      0 ≤ commissionRate ⟨none⟩ ∧ commissionRate ⟨none⟩ ≤ 1) ∧
    (Order.save ⟨none⟩ oEx).commission =
      (Order.save ⟨none⟩ oEx).total_price * commissionRate ⟨none⟩ ∧
    (Order.save ⟨none⟩ oEx).seller_earnings =
      (Order.save ⟨none⟩ oEx).total_price - (Order.save ⟨none⟩ oEx).commission := by
  refine ⟨⟨?_, ?_, ?_, ?_⟩, ?_⟩
  · norm_num [oEx, pEx]
  · norm_num [oEx]
  · norm_num [commissionRate]
  · norm_num [commissionRate]
  · exact order_commission_exact_product ⟨none⟩ oEx (by norm_num [oEx, pEx])
      (by norm_num [oEx]) (by norm_num [commissionRate]) (by norm_num [commissionRate])

/-- C3: the ownership guard shared by product edit and delete permits the
mutation iff the acting identity has a linked company whose identity equals
the product's owning company; with no linked company it always denies. -/
theorem can_modify_iff_owner (u : User) (p : Product) :
    (can_modify u p = true ↔ ∃ c, u.company = some c ∧ c.id = p.company.id) ∧
    (u.company = none → can_modify u p = false) := by
  constructor
  · cases h : u.company with
    | none => simp [can_modify, h]
    | some c => simp [can_modify, h]
  · intro h
    simp [can_modify, h]

/-- Witness for C3: true for the owner of the product's company, false for
an identity linked to a different company, false with no linked company. -/
theorem can_modify_iff_owner_witness :
    can_modify ⟨1, some cEx⟩ pEx = true ∧
    can_modify ⟨2, some cOther⟩ pEx = false ∧
    can_modify ⟨3, none⟩ pEx = false := by
  refine ⟨(can_modify_iff_owner ⟨1, some cEx⟩ pEx).1.mpr ⟨cEx, rfl, rfl⟩, ?_,
    (can_modify_iff_owner ⟨3, none⟩ pEx).2 rfl⟩
  decide

/-- C9: recomputing totals is idempotent — two orders agreeing on product
price and quantity receive identical total_price and commission from save,
and saving an already-saved order reproduces it exactly. -/
theorem order_save_idempotent (s : Settings) (o o' : Order)
    (hp : o'.product.price = o.product.price) (hq : o'.quantity = o.quantity) :
    ((Order.save s o').total_price = (Order.save s o).total_price ∧
      (Order.save s o').commission = (Order.save s o).commission) ∧
    Order.save s (Order.save s o) = Order.save s o := by
  refine ⟨⟨?_, ?_⟩, rfl⟩ <;> simp [Order.save, hp, hq]

/-- Witness for C9: the saved fixture order, saved again, keeps its totals. -/
theorem order_save_idempotent_witness :
    ((Order.save ⟨none⟩ (Order.save ⟨none⟩ oEx)).total_price =
        (Order.save ⟨none⟩ oEx).total_price ∧
      (Order.save ⟨none⟩ (Order.save ⟨none⟩ oEx)).commission =
        (Order.save ⟨none⟩ oEx).commission) ∧
    Order.save ⟨none⟩ (Order.save ⟨none⟩ oEx) = Order.save ⟨none⟩ oEx :=
  order_save_idempotent ⟨none⟩ oEx (Order.save ⟨none⟩ oEx) rfl rfl

/-- C4: when the order passes validation and persists, and the notification
dispatch then raises, the created order remains persisted with status
pending, the caller gets a warning message carrying the failure reason, the
view still redirects to the product page, and no exception escapes the view;
the notification failure never undoes the order. -/
theorem order_create_notification_failure_degrades (s : Settings)
    (admins : List String) (t : MailTransport) (p : Product) (fd : OrderFormData)
    (e : String) (hv : orderFormValid fd = true)
    (hm : (sendOrderEmails p.company admins t).result = .error e) :
    ∃ o, (order_create s admins t p fd).persisted = some o ∧
      o.status = .pending ∧
      (order_create s admins t p fd).message =
        some (.warning ("Order created but sending notification failed: " ++ e)) ∧
      (order_create s admins t p fd).redirect = some "product_detail" ∧
      (order_create s admins t p fd).raised = false := by
  refine ⟨Order.save s
    { product := p, buyer_name := fd.buyer_name, buyer_email := fd.buyer_email,
      quantity := fd.quantity.toNat, total_price := 0, commission := 0,
      status := .pending }, ?_⟩
  simp [order_create, hv, hm, Order.save]

/-- Witness for C4: valid form, seller send raises "boom" — the concrete
outcome keeps the order, warns with the reason, redirects, raises nothing. -/
theorem order_create_notification_failure_degrades_witness :
    orderFormValid fdEx = true ∧
    (sendOrderEmails pEx.company [] ⟨.error "boom", .ok ()⟩).result = .error "boom" ∧
    ∃ o, (order_create ⟨none⟩ [] ⟨.error "boom", .ok ()⟩ pEx fdEx).persisted = some o ∧
      o.status = .pending ∧
      (order_create ⟨none⟩ [] ⟨.error "boom", .ok ()⟩ pEx fdEx).message =
        some (.warning ("Order created but sending notification failed: " ++ "boom")) ∧
      (order_create ⟨none⟩ [] ⟨.error "boom", .ok ()⟩ pEx fdEx).redirect =
        some "product_detail" ∧
      (order_create ⟨none⟩ [] ⟨.error "boom", .ok ()⟩ pEx fdEx).raised = false :=
  ⟨by decide, by decide,
    order_create_notification_failure_degrades ⟨none⟩ [] ⟨.error "boom", .ok ()⟩
      pEx fdEx "boom" (by decide) (by decide)⟩

/-- C5 counterexample: the product's company has an email, an admin address
is configured, the admin send would succeed, yet a failing seller send
aborts the dispatch before the admin message is ever attempted — the sends
are not independent. -/
theorem send_order_emails_not_independent_cex :
    cEx.email ≠ "" ∧
    (sendOrderEmails cEx ["admin@x.com"] ⟨.error "boom", .ok ()⟩).sellerAttempted = true ∧
    (sendOrderEmails cEx ["admin@x.com"] ⟨.error "boom", .ok ()⟩).adminAttempted = false ∧
    (sendOrderEmails cEx ["admin@x.com"] ⟨.error "boom", .ok ()⟩).result = .error "boom" := by
  refine ⟨?_, ?_, ?_, ?_⟩ <;> decide

/-- C5 amended: the two sends are sequential, not independent — the
seller-bound message goes first whenever the company has an email, and its
failure propagates immediately, suppressing the admin-bound attempt; only
when the seller send succeeds or is skipped is the admin-bound message
attempted (iff admin addresses are configured), its own failure propagating;
the caller receives the first failing send's exception alone, never an
aggregate of both. -/
theorem send_order_emails_sequential (c : Company) (admins : List String)
    (t : MailTransport) :
    (∀ e, c.email ≠ "" → t.seller = .error e →
      sendOrderEmails c admins t =
        { sellerAttempted := true, adminAttempted := false, result := .error e }) ∧
    (c.email ≠ "" → t.seller = .ok () → admins ≠ [] →
      sendOrderEmails c admins t =
        { sellerAttempted := true, adminAttempted := true, result := t.admin }) ∧
    (c.email ≠ "" → t.seller = .ok () → admins = [] →
      sendOrderEmails c admins t =
        { sellerAttempted := true, adminAttempted := false, result := .ok () }) ∧
    (c.email = "" → admins ≠ [] →
      sendOrderEmails c admins t =
        { sellerAttempted := false, adminAttempted := true, result := t.admin }) ∧
    (c.email = "" → admins = [] →
      sendOrderEmails c admins t =
        { sellerAttempted := false, adminAttempted := false, result := .ok () }) := by
  refine ⟨?_, ?_, ?_, ?_, ?_⟩ <;> intros <;>
    simp_all [sendOrderEmails, List.isEmpty_iff]

/-- Witness for the amended C5: seller send fails, admin never attempted;
and with a healthy seller send both go out. -/
theorem send_order_emails_sequential_witness :
    sendOrderEmails cEx ["admin@x.com"] ⟨.error "boom", .ok ()⟩ =
      { sellerAttempted := true, adminAttempted := false, result := .error "boom" } ∧
    sendOrderEmails cEx ["admin@x.com"] ⟨.ok (), .ok ()⟩ =
      { sellerAttempted := true, adminAttempted := true, result := .ok () } :=
  ⟨(send_order_emails_sequential cEx ["admin@x.com"] ⟨.error "boom", .ok ()⟩).1
      "boom" (by decide) rfl,
    (send_order_emails_sequential cEx ["admin@x.com"] ⟨.ok (), .ok ()⟩).2.1
      (by decide) rfl (by decide)⟩

/-- C6: evaluation at the failing input — signup for alice@x.com while a
company already uses that email: the user row is written first, the company
insert raises the unique-email IntegrityError, and with no enclosing
transaction the new user row stays in the store linked to no company: an
orphaned user, contradicting the all-or-nothing signup the spec requires. -/
theorem seller_signup_orphans_user :
    (sellerSignUpFormSave dbC6 fdC6).2 =
      .error "IntegrityError: UNIQUE constraint failed: marketplace_company.email" ∧
    (sellerSignUpFormSave dbC6 fdC6).1.users =
      [{ username := "alice", email := "alice@x.com" }] ∧
    (sellerSignUpFormSave dbC6 fdC6).1.companies = dbC6.companies := by
  refine ⟨?_, ?_, ?_⟩ <;> decide

/-- C7: evaluation at the failing input — a submission with quantity 0 and
otherwise valid fields passes server-side validation (PositiveIntegerField's
floor is 0; the widget's min=1 is client-side only) and order_create
persists an order with quantity 0 and total_price 0, while a negative
quantity is rejected as the claim says. -/
theorem order_form_accepts_zero_quantity :
    orderFormValid fdZero = true ∧
    orderFormValid { fdZero with quantity := -1 } = false ∧
    ∃ o, (order_create ⟨none⟩ [] ⟨.ok (), .ok ()⟩ pEx fdZero).persisted = some o ∧
      o.quantity = 0 ∧ o.total_price = 0 ∧ o.commission = 0 ∧ o.status = .pending := by
  refine ⟨by decide, by decide, ?_⟩
  refine ⟨Order.save ⟨none⟩
    { product := pEx, buyer_name := "Bob", buyer_email := "bob@x.com",
      quantity := 0, total_price := 0, commission := 0, status := .pending },
    ?_, rfl, ?_, ?_, rfl⟩
  · have hv : orderFormValid
        { buyer_name := "Bob", buyer_email := "bob@x.com",
          emailWellFormed := true, quantity := 0 } = true := by decide
    have hm : (sendOrderEmails pEx.company [] ⟨.ok (), .ok ()⟩).result = .ok () := by
      decide
    simp [order_create, fdZero, hv, hm]
  · simp [Order.save]
  · simp [Order.save, commissionRate]

/-- C8 counterexample: an identity with no linked company hitting product
edit is met with PermissionDenied, not a redirect to signup/onboarding. -/
theorem product_edit_no_company_cex :
    product_edit_guard ⟨2, none⟩ pEx = .permissionDenied ∧
    product_edit_guard ⟨2, none⟩ pEx ≠ .redirectSignup := by
  refine ⟨?_, ?_⟩ <;> decide

/-- C8 amended: for an authenticated identity with no linked company, each
mutation entry point denies rather than errors out, but only product create
redirects to signup/onboarding; product edit and product delete instead
raise PermissionDenied (an authorization failure), not a redirect. -/
theorem product_mutation_no_company_outcomes (u : User) (p : Product)
    (h : u.company = none) :
    product_create_guard u = .redirectSignup ∧
    product_edit_guard u p = .permissionDenied ∧
    product_delete_guard u p = .permissionDenied := by
  simp [product_create_guard, product_edit_guard, product_delete_guard, can_modify, h]

/-- Witness for the amended C8 at a concrete company-less identity. -/
theorem product_mutation_no_company_outcomes_witness :
    product_create_guard ⟨2, none⟩ = .redirectSignup ∧
    product_edit_guard ⟨2, none⟩ pEx = .permissionDenied ∧
    product_delete_guard ⟨2, none⟩ pEx = .permissionDenied :=
  product_mutation_no_company_outcomes ⟨2, none⟩ pEx rfl

/-- C10: every product persisted by the create operation is owned by the
creator's linked company — the form data carries only name, price,
description and image, so the stored product's company always equals the
acting user's company and its content fields come from the form. -/
theorem product_create_owned_by_creator (u : User) (fd : ProductFormData)
    (ok : Bool) (nid : Nat) (p : Product)
    (h : product_create u fd ok nid = some p) :
    ∃ c, u.company = some c ∧ p.company = c ∧ p.name = fd.name ∧
      p.price = fd.price ∧ p.description = fd.description ∧ p.image = fd.image := by
  cases hc : u.company with
  | none => simp [product_create, hc] at h
  | some c =>
      cases ok with
      | false => simp [product_create, hc] at h
      | true =>
          refine ⟨c, rfl, ?_⟩
          simp [product_create, hc] at h
          subst h
          exact ⟨rfl, rfl, rfl, rfl, rfl⟩

/-- Witness for C10: a concrete successful create by cEx's owner yields a
product owned by cEx with the submitted fields. -/
theorem product_create_owned_by_creator_witness :
    ∃ c, (User.mk 1 (some cEx)).company = some c ∧
      ({ id := 7, company := cEx, name := fdProd.name, price := fdProd.price,
         description := fdProd.description, image := fdProd.image } : Product).company = c ∧
      ({ id := 7, company := cEx, name := fdProd.name, price := fdProd.price,
         description := fdProd.description, image := fdProd.image } : Product).name = fdProd.name ∧
      ({ id := 7, company := cEx, name := fdProd.name, price := fdProd.price,
         description := fdProd.description, image := fdProd.image } : Product).price = fdProd.price ∧
      ({ id := 7, company := cEx, name := fdProd.name, price := fdProd.price,
         description := fdProd.description, image := fdProd.image } : Product).description = fdProd.description ∧
      ({ id := 7, company := cEx, name := fdProd.name, price := fdProd.price,
         description := fdProd.description, image := fdProd.image } : Product).image = fdProd.image :=
  product_create_owned_by_creator (User.mk 1 (some cEx)) fdProd true 7 _ rfl

end Dealstash
